import Mathlib

/-!
Shallow embedding of the bioclick backend's analytics-aggregation and
weekly-email-scheduling core (src/services/analytics.py,
src/services/email.py, src/services/email_scheduler.py, src/models/*).

Modelling conventions:
* Timestamps are integers measured in UTC days (one day = one time unit),
  so `timedelta(days=d)` is subtraction of `d` and `func.date(ts)` is the
  timestamp itself.  Percentages and growth stay exact rationals.
* The relational store is a record of lists; SQL filtered queries become
  `List.filter`, `COUNT(DISTINCT ...)` becomes `dedup.length`, appends
  become cons.  The `email_logs` list is kept newest-first: every insert
  stamps `sent_at` with a strictly increasing clock, so list order is
  exactly `ORDER BY sent_at DESC` order.
* Python `round(x, 1)` (banker's rounding) is `pythonRound1` over ℚ.
* External effects (the resend transport, exceptions raised while
  processing a user) are supplied by an explicit per-user environment.
-/

/-- EmailType enum from src/models/email.py. -/
inductive EmailType where
  | welcome
  | passwordReset
  | analyticsSummary
deriving DecidableEq

/-- ClickEvent row (src/models/analytics.py): immutable click with
enrichment metadata; `clicked_at` in UTC day units. -/
structure ClickEvent where
  link_id : Nat
  clicked_at : ℤ
  ip_address : Option String
  user_agent : Option String
  referer : Option String
  country : Option String
  device_type : Option String
  browser : Option String
deriving DecidableEq

/-- Link row (src/models/link.py), restricted to the fields the
aggregation core reads. -/
structure Link where
  id : Nat
  user_id : Nat
  title : String
deriving DecidableEq

/-- User row (src/models/user.py), restricted to the fields the scheduler
reads. -/
structure User where
  id : Nat
  username : String
  email : String
  is_active : Bool
deriving DecidableEq

/-- EmailLog row (src/models/email.py).  `sent_at` is a logical clock
value; period fields are only populated for analytics summaries. -/
structure EmailLog where
  user_id : Nat
  email_type : EmailType
  recipient_email : String
  subject : String
  sent_at : Nat
  success : Bool
  error_message : Option String
  analytics_period_start : Option ℤ
  analytics_period_end : Option ℤ
deriving DecidableEq

/-- The relational store.  `email_logs` is newest-first (see module
comment); `clock` supplies the strictly increasing `sent_at` stamps. -/
structure Db where
  users : List User
  links : List Link
  clicks : List ClickEvent
  email_logs : List EmailLog
  clock : Nat
deriving DecidableEq

/-- DailyStats response model; the source stringifies the date, here it
stays the UTC day number. -/
structure DailyStats where
  date : ℤ
  clicks : Nat
deriving DecidableEq

/-- LinkStats response model. -/
structure LinkStats where
  link_id : Nat
  title : String
  clicks : Nat
  percentage : ℚ
deriving DecidableEq

/-- DeviceStats response model. -/
structure DeviceStats where
  device_type : String
  count : Nat
  percentage : ℚ
deriving DecidableEq

/-- CountryStats response model. -/
structure CountryStats where
  country_code : String
  country_name : String
  clicks : Nat
  percentage : ℚ
  unique_visitors : Nat
deriving DecidableEq

/-- CityStats response model (city breakdown is a stated no-op). -/
structure CityStats where
  city : String
  country_code : String
  clicks : Nat
deriving DecidableEq

/-- AnalyticsResponse (src/models/analytics.py). -/
structure AnalyticsResponse where
  total_clicks : Nat
  unique_visitors : Nat
  daily_stats : List DailyStats
  top_links : List LinkStats
  device_stats : List DeviceStats
  growth_percentage : ℚ
deriving DecidableEq

/-- GeographicResponse (src/models/analytics.py). -/
structure GeographicResponse where
  total_countries : Nat
  top_countries : List CountryStats
  city_breakdown : List CityStats
  geographic_trends : List DailyStats
deriving DecidableEq

/-- The result dict of EmailScheduler.send_weekly_analytics_emails:
`return {"sent": sent_count, "errors": error_count}` — the source
reports exactly these two fields. -/
structure JobResult where
  sent : Nat
  errors : Nat
deriving DecidableEq

/-- Settings consumed by the email path (src/config.py feature flag
`send_analytics_emails`). -/
structure Config where
  send_analytics_emails : Bool
deriving DecidableEq

/-- Outcome of one call to the external resend transport
(`resend.Emails.send` inside EmailService.send_email). -/
inductive SendResult where
  | delivered
  | failed (msg : String)
deriving DecidableEq

/-- Per-user external environment for one scheduler run: whether the
analytics stage raises for this user, and how the transport behaves. -/
structure UserEnv where
  raiseMsg : Option String
  transport : SendResult
deriving DecidableEq

/-- What happened to one user inside the scheduler loop (the branch the
source takes for that user). -/
inductive Outcome where
  | sentOk
  | sendFailed
  | skippedDup
  | skippedNoActivity
  | errored
deriving DecidableEq

/-- Round half to even (Python's `round` tie-breaking) to an integer. -/
def roundHalfEven (q : ℚ) : ℤ :=
  if q - ⌊q⌋ < 1/2 then ⌊q⌋
  else if 1/2 < q - ⌊q⌋ then ⌊q⌋ + 1
  else if ⌊q⌋ % 2 = 0 then ⌊q⌋ else ⌊q⌋ + 1

/-- Python `round(q, 1)`. -/
def pythonRound1 (q : ℚ) : ℚ :=
  (roundHalfEven (q * 10) : ℚ) / 10

/-! ## Analytics aggregator (src/services/analytics.py) -/

/-- Descending-by-click-count order used for `link_performance.sort(key=
lambda x: x[1], reverse=True)`; Python's sort is stable and so is
`List.insertionSort` with this non-strict relation. -/
def byClicksDesc (a b : Link × Nat) : Prop := b.2 ≤ a.2

instance : DecidableRel byClicksDesc := fun a b => Nat.decLe b.2 a.2

instance : IsTotal (Link × Nat) byClicksDesc :=
  ⟨fun a b => Nat.le_total b.2 a.2⟩

instance : IsTrans (Link × Nat) byClicksDesc :=
  ⟨fun _ _ _ hab hbc => le_trans hbc hab⟩

/-- Descending order for country rows (country, clicks, unique ips),
modelling `ORDER BY COUNT(id) DESC`. -/
def byCountryClicksDesc (a b : String × Nat × Nat) : Prop := b.2.1 ≤ a.2.1

instance : DecidableRel byCountryClicksDesc := fun a b => Nat.decLe b.2.1 a.2.1

instance : IsTotal (String × Nat × Nat) byCountryClicksDesc :=
  ⟨fun a b => Nat.le_total b.2.1 a.2.1⟩

instance : IsTrans (String × Nat × Nat) byCountryClicksDesc :=
  ⟨fun _ _ _ hab hbc => le_trans hbc hab⟩

/-- The user's links: `select(Link).where(Link.user_id == user_id)`. -/
def userLinksOf (db : Db) (userId : Nat) : List Link :=
  db.links.filter (fun l => l.user_id == userId)

/-- `link_ids = [link.id for link in user_links]`. -/
def linkIdsOf (db : Db) (userId : Nat) : List Nat :=
  (userLinksOf db userId).map (·.id)

/-- Count of clicks on the given links with `clicked_at >= start_date`
(the lower-bounded count used for total clicks and growth). -/
def countClicksFrom (clicks : List ClickEvent) (linkIds : List Nat)
    (startDate : ℤ) : Nat :=
  (clicks.filter (fun c =>
    linkIds.contains c.link_id && decide (startDate ≤ c.clicked_at))).length

/-- `COUNT(DISTINCT ip_address)` over in-window clicks with a non-null
ip (AnalyticsService.get_analytics, unique_visitors). -/
def uniqueVisitors (clicks : List ClickEvent) (linkIds : List Nat)
    (startDate : ℤ) : Nat :=
  ((clicks.filter (fun c =>
      linkIds.contains c.link_id && decide (startDate ≤ c.clicked_at))).filterMap
    (·.ip_address)).dedup.length

/-- AnalyticsService._get_daily_stats: clicks in [start, end] grouped by
calendar date, one row per date with at least one click, ascending. -/
def get_daily_stats (clicks : List ClickEvent) (linkIds : List Nat)
    (startDate endDate : ℤ) : List DailyStats :=
  let inRange := clicks.filter (fun c =>
    linkIds.contains c.link_id && decide (startDate ≤ c.clicked_at) &&
      decide (c.clicked_at ≤ endDate))
  let dates := ((inRange.map (fun c => c.clicked_at)).dedup).insertionSort (· ≤ ·)
  dates.map (fun d =>
    { date := d
      clicks := (inRange.filter (fun c => c.clicked_at == d)).length })

/-- Per-link in-window click count (the per-link COUNT query inside
AnalyticsService._get_top_links). -/
def countLinkClicks (clicks : List ClickEvent) (linkId : Nat)
    (startDate : ℤ) : Nat :=
  (clicks.filter (fun c =>
    c.link_id == linkId && decide (startDate ≤ c.clicked_at))).length

/-- AnalyticsService._get_top_links: per-link counts in the links' stored
order, stable sort descending by count, take 5, percentage of the total
across all of the user's links rounded to 1 decimal (0 when total 0). -/
def get_top_links (clicks : List ClickEvent) (links : List Link)
    (startDate : ℤ) : List LinkStats :=
  let link_performance := links.map (fun l => (l, countLinkClicks clicks l.id startDate))
  let total_clicks : Nat := (link_performance.map (·.2)).sum
  let sorted := link_performance.insertionSort byClicksDesc
  (sorted.take 5).map (fun p =>
    { link_id := p.1.id
      title := p.1.title
      clicks := p.2
      percentage :=
        if 0 < total_clicks then pythonRound1 ((p.2 : ℚ) / total_clicks * 100)
        else 0 })

/-- AnalyticsService._get_device_stats: in-window clicks with a non-null
device_type grouped by device_type; empty when no such clicks. -/
def get_device_stats (clicks : List ClickEvent) (linkIds : List Nat)
    (startDate : ℤ) : List DeviceStats :=
  let filtered := clicks.filter (fun c =>
    linkIds.contains c.link_id && decide (startDate ≤ c.clicked_at) &&
      c.device_type.isSome)
  let groups := (filtered.filterMap (·.device_type)).dedup
  let rows := groups.map (fun d =>
    (d, (filtered.filter (fun c => c.device_type == some d)).length))
  let total : Nat := (rows.map (·.2)).sum
  if total = 0 then []
  else rows.map (fun p =>
    { device_type := p.1
      count := p.2
      percentage := pythonRound1 ((p.2 : ℚ) / total * 100) })

/-- Click count in the immediately preceding window
[start - days, start), from AnalyticsService._calculate_growth. -/
def previousPeriodClicks (clicks : List ClickEvent) (linkIds : List Nat)
    (startDate : ℤ) (days : Nat) : Nat :=
  (clicks.filter (fun c =>
    linkIds.contains c.link_id && decide (startDate - days ≤ c.clicked_at) &&
      decide (c.clicked_at < startDate))).length

/-- AnalyticsService._calculate_growth translated from the source: count
both windows, special-case a zero previous period, otherwise the rounded
relative change. -/
def calculate_growth (clicks : List ClickEvent) (linkIds : List Nat)
    (startDate : ℤ) (days : Nat) : ℚ :=
  let current_clicks := countClicksFrom clicks linkIds startDate
  let previous_clicks := previousPeriodClicks clicks linkIds startDate days
  if previous_clicks = 0 then
    if 0 < current_clicks then 100 else 0
  else
    pythonRound1 (((current_clicks : ℚ) - previous_clicks) / previous_clicks * 100)

/-- Modelled from the spec: the growth formula as section 4.2 step 7
words it, as a pure function of the two window counts, to be compared
with `calculate_growth` as translated from the source. -/
def specGrowth (current previous : Nat) : ℚ :=
  if previous = 0 then
    if 0 < current then 100 else 0
  else
    pythonRound1 (((current : ℚ) - (previous : ℚ)) / (previous : ℚ) * 100)

/-- AnalyticsService.get_analytics: all-zero summary when the user owns
no links, otherwise the assembled windowed rollup.  `now` stands for the
`datetime.now(timezone.utc)` taken at the start of the computation. -/
def get_analytics (db : Db) (userId : Nat) (days : Nat) (now : ℤ) :
    AnalyticsResponse :=
  let endDate := now
  let startDate := endDate - days
  let user_links := userLinksOf db userId
  let link_ids := user_links.map (·.id)
  if user_links.isEmpty then
    { total_clicks := 0
      unique_visitors := 0
      daily_stats := []
      top_links := []
      device_stats := []
      growth_percentage := 0 }
  else
    { total_clicks := countClicksFrom db.clicks link_ids startDate
      unique_visitors := uniqueVisitors db.clicks link_ids startDate
      daily_stats := get_daily_stats db.clicks link_ids startDate endDate
      top_links := get_top_links db.clicks user_links startDate
      device_stats := get_device_stats db.clicks link_ids startDate
      growth_percentage := calculate_growth db.clicks link_ids startDate days }

/-- The static ISO-code → display-name table from
AnalyticsService._get_country_names. -/
def countryNameTable : List (String × String) :=
  [("US", "United States"), ("GB", "United Kingdom"), ("CA", "Canada"),
   ("AU", "Australia"), ("DE", "Germany"), ("FR", "France"), ("IT", "Italy"),
   ("ES", "Spain"), ("NL", "Netherlands"), ("BR", "Brazil"), ("JP", "Japan"),
   ("CN", "China"), ("IN", "India"), ("MX", "Mexico"), ("AR", "Argentina"),
   ("CL", "Chile"), ("CO", "Colombia"), ("PE", "Peru"), ("RU", "Russia"),
   ("UA", "Ukraine"), ("PL", "Poland"), ("SE", "Sweden"), ("NO", "Norway"),
   ("DK", "Denmark"), ("FI", "Finland"), ("CH", "Switzerland"),
   ("AT", "Austria"), ("BE", "Belgium"), ("PT", "Portugal"), ("IE", "Ireland"),
   ("NZ", "New Zealand"), ("ZA", "South Africa"), ("EG", "Egypt"),
   ("NG", "Nigeria"), ("KE", "Kenya"), ("MA", "Morocco"), ("TH", "Thailand"),
   ("VN", "Vietnam"), ("SG", "Singapore"), ("MY", "Malaysia"),
   ("ID", "Indonesia"), ("PH", "Philippines"), ("KR", "South Korea"),
   ("TR", "Turkey"), ("SA", "Saudi Arabia"), ("AE", "UAE"), ("IL", "Israel"),
   ("QA", "Qatar")]

/-- In-window clicks on the given links carrying a country code (the
WHERE clause of AnalyticsService._get_country_stats). -/
def countryTaggedClicks (clicks : List ClickEvent) (linkIds : List Nat)
    (startDate : ℤ) : List ClickEvent :=
  clicks.filter (fun c =>
    linkIds.contains c.link_id && decide (startDate ≤ c.clicked_at) &&
      c.country.isSome)

/-- Number of distinct countries among the in-window country-tagged
clicks (the number of groups the GROUP BY produces). -/
def distinctCountryCount (clicks : List ClickEvent) (linkIds : List Nat)
    (startDate : ℤ) : Nat :=
  ((countryTaggedClicks clicks linkIds startDate).filterMap (·.country)).dedup.length

/-- AnalyticsService._get_country_stats: group country-tagged clicks by
country, order by click count descending, percentage of the total across
all groups, then truncate to the top 10 rows. -/
def get_country_stats (clicks : List ClickEvent) (linkIds : List Nat)
    (startDate : ℤ) : List CountryStats :=
  let filtered := countryTaggedClicks clicks linkIds startDate
  let groups := (filtered.filterMap (·.country)).dedup
  let rows := groups.map (fun co =>
    (co,
     (filtered.filter (fun c => c.country == some co)).length,
     ((filtered.filter (fun c => c.country == some co)).filterMap
       (·.ip_address)).dedup.length))
  let sorted := rows.insertionSort byCountryClicksDesc
  let total_clicks : Nat := (rows.map (·.2.1)).sum
  (sorted.map (fun r =>
    { country_code := r.1
      country_name := (countryNameTable.lookup r.1).getD r.1
      clicks := r.2.1
      percentage :=
        if 0 < total_clicks then pythonRound1 ((r.2.1 : ℚ) / total_clicks * 100)
        else 0
      unique_visitors := r.2.2 })).take 10

/-- AnalyticsService._get_city_stats: stated placeholder, always empty. -/
def get_city_stats (_clicks : List ClickEvent) (_linkIds : List Nat)
    (_startDate : ℤ) : List CityStats :=
  []

/-- AnalyticsService._get_geographic_trends: daily counts over the
country-tagged clicks in [start, end]. -/
def get_geographic_trends (clicks : List ClickEvent) (linkIds : List Nat)
    (startDate endDate : ℤ) : List DailyStats :=
  let inRange := clicks.filter (fun c =>
    linkIds.contains c.link_id && decide (startDate ≤ c.clicked_at) &&
      decide (c.clicked_at ≤ endDate) && c.country.isSome)
  let dates := ((inRange.map (fun c => c.clicked_at)).dedup).insertionSort (· ≤ ·)
  dates.map (fun d =>
    { date := d
      clicks := (inRange.filter (fun c => c.clicked_at == d)).length })

/-- AnalyticsService.get_geographic_analytics: zeros when the user owns
no links; otherwise `total_countries` is the length of the (already
truncated) top-countries list. -/
def get_geographic_analytics (db : Db) (userId : Nat) (days : Nat)
    (now : ℤ) : GeographicResponse :=
  let endDate := now
  let startDate := endDate - days
  let user_links := userLinksOf db userId
  let link_ids := user_links.map (·.id)
  if user_links.isEmpty then
    { total_countries := 0
      top_countries := []
      city_breakdown := []
      geographic_trends := [] }
  else
    let top_countries := get_country_stats db.clicks link_ids startDate
    { total_countries := top_countries.length
      top_countries := top_countries
      city_breakdown := get_city_stats db.clicks link_ids startDate
      geographic_trends := get_geographic_trends db.clicks link_ids startDate endDate }

/-! ## Geo lookup (AnalyticsService._get_country_from_ip) -/

/-- How one call into the geoip2 library can end.  `found` is a
successful record lookup (whose iso_code may itself be null);
`addressNotFound`, `fileNotFound` and `osError` are the exception types
the source's `except` clause names; `valueError` is the `ValueError`
geoip2/maxminddb raise for a string that is not a valid IPv4/IPv6
address (only reachable with the database file present). -/
inductive GeoOutcome where
  | found (iso_code : Option String)
  | addressNotFound
  | fileNotFound
  | osError
  | valueError
deriving DecidableEq

/-- AnalyticsService._get_country_from_ip: the try/except returns the
iso code on success and None on the three caught exception types; any
other exception (notably `ValueError` on a malformed IP) propagates to
the caller, modelled as `Except.error`. -/
def get_country_from_ip (geo : String → GeoOutcome) (ip : String) :
    Except String (Option String) :=
  match geo ip with
  | .found code => .ok code
  | .addressNotFound => .ok none
  | .fileNotFound => .ok none
  | .osError => .ok none
  | .valueError => .error "ValueError"

/-! ## Email service (src/services/email.py) -/

/-- Insert an EmailLog row (`session.add` + `commit` inside
EmailService.send_email): cons onto the newest-first list, stamping
`sent_at` with the strictly increasing clock. -/
def logEmail (db : Db) (uid : Nat) (etype : EmailType)
    (recipient subj : String) (ok : Bool) (err : Option String) : Db :=
  { db with
      email_logs :=
        { user_id := uid
          email_type := etype
          recipient_email := recipient
          subject := subj
          sent_at := db.clock
          success := ok
          error_message := err
          analytics_period_start := none
          analytics_period_end := none } :: db.email_logs
      clock := db.clock + 1 }

/-- EmailService.send_email with a session supplied: calls the transport,
and logs the attempt when `session and user_id and email_type` is truthy
— `user_id` 0 is falsy in Python, so logging is skipped for it. -/
def send_email (db : Db) (transport : SendResult) (recipient subj : String)
    (uid : Nat) (etype : EmailType) : Db × Bool :=
  match transport with
  | .delivered =>
      (if uid ≠ 0 then logEmail db uid etype recipient subj true none else db, true)
  | .failed msg =>
      (if uid ≠ 0 then logEmail db uid etype recipient subj false (some msg) else db,
       false)

/-- Set the period fields on the first (newest, i.e. largest `sent_at`)
analytics-summary log of the user — the source's
`order_by(sent_at.desc()).first()` followed by a field update. -/
def setPeriodOnFirst (logs : List EmailLog) (uid : Nat) (s e : ℤ) :
    List EmailLog :=
  match logs with
  | [] => []
  | l :: ls =>
      if l.user_id = uid ∧ l.email_type = EmailType.analyticsSummary then
        { l with analytics_period_start := some s
                 analytics_period_end := some e } :: ls
      else l :: setPeriodOnFirst ls uid s e

/-- EmailService.send_analytics_summary with session and user_id
supplied: feature-flag early return, the send+log, then — only when
`session and user_id and result.get("success")` — tagging the latest
analytics log with the period bounds. -/
def send_analytics_summary (cfg : Config) (db : Db) (u : User)
    (transport : SendResult) (period_start period_end : ℤ) : Db × Bool :=
  if cfg.send_analytics_emails = false then (db, true)
  else
    let r := send_email db transport u.email "analytics summary" u.id
      EmailType.analyticsSummary
    if u.id ≠ 0 ∧ r.2 = true then
      ({ r.1 with
          email_logs := setPeriodOnFirst r.1.email_logs u.id period_start period_end },
       r.2)
    else r

/-! ## Weekly scheduler (src/services/email_scheduler.py) -/

/-- The duplicate check: an EmailLog row for this user, of type
analytics_summary, successful, whose `analytics_period_start` is on/after
the target period start (a null period start compares as false, as in
SQL). -/
def hasRecentSuccessLog (db : Db) (uid : Nat) (period_start : ℤ) : Bool :=
  db.email_logs.any (fun l =>
    l.user_id == uid && l.email_type == EmailType.analyticsSummary &&
      (match l.analytics_period_start with
       | some p => decide (period_start ≤ p)
       | none => false) &&
      l.success)

/-- The body of the scheduler's per-user try block: duplicate check,
7-day analytics, zero-activity skip, then the send.  The environment
decides whether the analytics stage raises and how the transport
behaves. -/
def processUser (cfg : Config) (env : Nat → UserEnv) (now period_start : ℤ)
    (db : Db) (u : User) : Db × Outcome :=
  if hasRecentSuccessLog db u.id period_start = true then (db, .skippedDup)
  else
    match (env u.id).raiseMsg with
    | some _ => (db, .errored)
    | none =>
      let a := get_analytics db u.id 7 now
      if 0 < a.total_clicks then
        let r := send_analytics_summary cfg db u (env u.id).transport
          period_start now
        (r.1, if r.2 then .sentOk else .sendFailed)
      else (db, .skippedNoActivity)

/-- `sent_count` increment for one outcome. -/
def sentBump : Outcome → Nat
  | .sentOk => 1
  | _ => 0

/-- `error_count` increment for one outcome: a failed send and a caught
per-user exception both count as an error; skips count nowhere. -/
def errorBump : Outcome → Nat
  | .sendFailed => 1
  | .errored => 1
  | _ => 0

/-- The scheduler's user loop, accumulating `sent_count` and
`error_count` while threading the store. -/
def processUsers (cfg : Config) (env : Nat → UserEnv) (now period_start : ℤ) :
    List User → Db → Nat → Nat → Db × JobResult
  | [], db, s, e => (db, { sent := s, errors := e })
  | u :: us, db, s, e =>
      let p := processUser cfg env now period_start db u
      processUsers cfg env now period_start us p.1 (s + sentBump p.2)
        (e + errorBump p.2)

/-- `select(User).where(User.is_active == True)`. -/
def activeUsersOf (db : Db) : List User :=
  db.users.filter (·.is_active)

/-- EmailScheduler.send_weekly_analytics_emails: period
[now - 7 days, now), loop over active users, and the
`{"sent": ..., "errors": ...}` result. -/
def send_weekly_analytics_emails (cfg : Config) (env : Nat → UserEnv)
    (now : ℤ) (db : Db) : Db × JobResult :=
  let period_start := now - 7
  processUsers cfg env now period_start (activeUsersOf db) db 0 0

/-- Count of successful analytics-summary EmailLog rows for a user
(each successful transport send with a nonzero user id writes exactly
one such row). -/
def successLogCount (db : Db) (uid : Nat) : Nat :=
  (db.email_logs.filter (fun l =>
    l.user_id == uid && l.email_type == EmailType.analyticsSummary &&
      l.success)).length

/-- The `total_clicks` accumulated inside AnalyticsService._get_top_links:
the sum of the per-link in-window counts across all of the user's
links. -/
def totalTopClicks (clicks : List ClickEvent) (links : List Link)
    (startDate : ℤ) : Nat :=
  ((links.map (fun l => (l, countLinkClicks clicks l.id startDate))).map (·.2)).sum

/-- Two-run duplicate-suppression invariant: relative to a baseline
store `db0`, every user has gained at most one successful
analytics-summary log, and any user who gained one now passes the
duplicate check for the period starting at `start`. -/
def schedInv (db0 db : Db) (start : ℤ) : Prop :=
  ∀ uid : Nat,
    successLogCount db uid ≤ successLogCount db0 uid + 1 ∧
    (successLogCount db0 uid < successLogCount db uid →
      hasRecentSuccessLog db uid start = true)

/-! ## Concrete fixtures used by witnesses and counterexamples -/

/-- An active user with the given id. -/
def fxUser (i : Nat) : User := ⟨i, "user", "user-mail", true⟩

/-- A link owned by user 1. -/
def fxLink : Link := ⟨1, 1, "Link One"⟩

/-- One enriched click on link 1 at day 6. -/
def fxClick : ClickEvent :=
  ⟨1, 6, some "ip-a", none, none, some "US", some "mobile", some "Chrome"⟩

/-- A successful analytics-summary log for user 1 tagged with period
[0, 7]. -/
def fxTaggedLog : EmailLog :=
  ⟨1, EmailType.analyticsSummary, "user-mail", "analytics summary", 0, true,
   none, some 0, some 7⟩

/-- Analytics emails enabled. -/
def cfgOn : Config := ⟨true⟩

/-- Environment: nothing raises, the transport delivers. -/
def envDeliver : Nat → UserEnv := fun _ => ⟨none, SendResult.delivered⟩

/-- Environment: nothing raises, the transport fails every send. -/
def envFail : Nat → UserEnv := fun _ => ⟨none, SendResult.failed "transport down"⟩

/-- Environment: the analytics stage raises for every user. -/
def envRaise : Nat → UserEnv := fun _ => ⟨some "boom", SendResult.delivered⟩

/-- Store with one active user owning one clicked link and no logs. -/
def dbFresh : Db := ⟨[fxUser 1], [fxLink], [fxClick], [], 0⟩

/-- Same store but an analytics summary for period [0, 7] was already
sent successfully. -/
def dbDup : Db := ⟨[fxUser 1], [fxLink], [fxClick], [fxTaggedLog], 1⟩

/-- Two active users: user 1 already got the period's summary, user 2
has no links and hence no activity. -/
def dbTwoSkips : Db :=
  ⟨[fxUser 1, ⟨2, "user2", "user2-mail", true⟩], [fxLink], [], [fxTaggedLog], 1⟩

/-- A click on link 1 at day 6 tagged with the given country. -/
def mkCountryClick (co : String) : ClickEvent :=
  ⟨1, 6, none, none, none, some co, none, none⟩

/-- User 1's clicks span eleven distinct countries. -/
def dbManyCountries : Db :=
  ⟨[fxUser 1], [fxLink],
   (["AA", "BB", "CC", "DD", "EE", "FF", "GG", "HH", "II", "JJ", "KK"].map
     mkCountryClick),
   [], 0⟩

/-- Two clicks in the previous window [-7, 0) and one in the current
window [0, ∞): relative change (1 - 2) / 2 × 100 = -50. -/
def c2Clicks : List ClickEvent :=
  [⟨1, -1, none, none, none, none, none, none⟩,
   ⟨1, -1, none, none, none, none, none, none⟩,
   ⟨1, 1, none, none, none, none, none, none⟩]

/-! ## Theorems -/

theorem roundHalfEven_le (q : ℚ) : (roundHalfEven q : ℚ) ≤ q + 1/2 := by
  unfold roundHalfEven
  have hf : (⌊q⌋ : ℚ) ≤ q := Int.floor_le q
  split
  · linarith
  · rename_i h1
    split
    · rename_i h2
      push_cast
      linarith
    · rename_i h2
      have hr : q - (⌊q⌋ : ℚ) = 1/2 := le_antisymm (not_lt.mp h2) (not_lt.mp h1)
      split
      · linarith
      · push_cast
        linarith

theorem pythonRound1_le (q : ℚ) : pythonRound1 q ≤ q + 1/20 := by
  unfold pythonRound1
  have h := roundHalfEven_le (q * 10)
  have h10 : (0:ℚ) < 10 := by norm_num
  rw [div_le_iff₀ h10]
  linarith

/-- C2: growth is determined from the current window count and the
immediately preceding equal-length window count exactly as the spec's
formula (`specGrowth`) states: 100.0 / 0.0 when the previous period is
empty, otherwise the rounded relative change, which can be negative.
The concrete conjuncts are the spec's own test vectors plus a negative
end-to-end run over the click ledger. -/
theorem c2_growth_formula :
    (∀ (clicks : List ClickEvent) (linkIds : List Nat) (startDate : ℤ)
       (days : Nat),
      calculate_growth clicks linkIds startDate days =
        specGrowth (countClicksFrom clicks linkIds startDate)
          (previousPeriodClicks clicks linkIds startDate days)) ∧
    specGrowth 75 50 = 50 ∧
    specGrowth 5 0 = 100 ∧
    specGrowth 0 0 = 0 ∧
    specGrowth 40 80 = -50 ∧
    calculate_growth c2Clicks [1] 0 7 = -50 := by
  refine ⟨fun clicks linkIds startDate days => rfl, ?_, ?_, ?_, ?_, ?_⟩
  · norm_num [specGrowth, pythonRound1]
    norm_num [roundHalfEven]
  · norm_num [specGrowth]
  · norm_num [specGrowth]
  · norm_num [specGrowth, pythonRound1]
    norm_num [roundHalfEven]
  · have h : calculate_growth c2Clicks [1] 0 7 =
        specGrowth (countClicksFrom c2Clicks [1] 0)
          (previousPeriodClicks c2Clicks [1] 0 7) := rfl
    have h1 : countClicksFrom c2Clicks [1] 0 = 1 := by decide
    have h2 : previousPeriodClicks c2Clicks [1] 0 7 = 2 := by decide
    rw [h, h1, h2]
    norm_num [specGrowth, pythonRound1]
    norm_num [roundHalfEven]

/-- C5 counterexample: with the geo database present, a malformed IP
string makes geoip2 raise `ValueError`, which the source's except clause
does not catch — the lookup propagates an exception instead of
returning none. -/
theorem c5_malformed_ip_raises :
    get_country_from_ip (fun _ => GeoOutcome.valueError) "not-an-ip" =
      Except.error "ValueError" := rfl

/-- C5 (amended): the lookup returns a country code or none and never
raises when the IP resolves, is unresolvable, or the local geo-database
file is missing/unavailable; the one way it raises is the uncaught
`ValueError` for a malformed IP string. -/
theorem c5_lookup_error_iff_malformed :
    ∀ (geo : String → GeoOutcome) (ip : String),
      (∃ e, get_country_from_ip geo ip = Except.error e) ↔
        geo ip = GeoOutcome.valueError := by
  intro geo ip
  cases h : geo ip <;> simp [get_country_from_ip, h]

/-- C7: a user owning zero links gets the all-zero/empty analytics
summary. -/
theorem c7_no_links_zero_summary :
    ∀ (db : Db) (userId days : Nat) (now : ℤ),
      userLinksOf db userId = [] →
      get_analytics db userId days now =
        { total_clicks := 0, unique_visitors := 0, daily_stats := [],
          top_links := [], device_stats := [], growth_percentage := 0 } := by
  intro db userId days now h
  simp [get_analytics, h]

/-- C7 witness: the empty store at a concrete user and window. -/
theorem c7_no_links_zero_summary_witness :
    get_analytics ⟨[], [], [], [], 0⟩ 5 30 100 =
      { total_clicks := 0, unique_visitors := 0, daily_stats := [],
        top_links := [], device_stats := [], growth_percentage := 0 } :=
  c7_no_links_zero_summary ⟨[], [], [], [], 0⟩ 5 30 100 rfl

theorem length_get_country_stats (clicks : List ClickEvent)
    (linkIds : List Nat) (startDate : ℤ) :
    (get_country_stats clicks linkIds startDate).length =
      min 10 (distinctCountryCount clicks linkIds startDate) := by
  simp [get_country_stats, distinctCountryCount, List.length_take,
    List.length_insertionSort]

theorem distinctCountryCount_nil_links (clicks : List ClickEvent)
    (startDate : ℤ) : distinctCountryCount clicks [] startDate = 0 := by
  simp [distinctCountryCount, countryTaggedClicks]

/-- C10: total_countries equals the length of the truncated top-countries
list, hence never exceeds 10; with more than 10 distinct in-window
countries it is exactly 10 and strictly below the true distinct count. -/
theorem c10_total_countries_truncated :
    ∀ (db : Db) (userId days : Nat) (now : ℤ),
      (get_geographic_analytics db userId days now).total_countries =
        (get_geographic_analytics db userId days now).top_countries.length ∧
      (get_geographic_analytics db userId days now).total_countries ≤ 10 ∧
      (10 < distinctCountryCount db.clicks (linkIdsOf db userId) (now - days) →
        (get_geographic_analytics db userId days now).total_countries = 10 ∧
        (get_geographic_analytics db userId days now).total_countries <
          distinctCountryCount db.clicks (linkIdsOf db userId) (now - days)) := by
  intro db userId days now
  by_cases h : (userLinksOf db userId).isEmpty
  · have hnil : userLinksOf db userId = [] := List.isEmpty_iff.mp h
    have hl : linkIdsOf db userId = [] := by simp [linkIdsOf, hnil]
    simp [get_geographic_analytics, h, hl, distinctCountryCount_nil_links]
  · have hg : get_geographic_analytics db userId days now =
        { total_countries :=
            (get_country_stats db.clicks (linkIdsOf db userId) (now - days)).length
          top_countries :=
            get_country_stats db.clicks (linkIdsOf db userId) (now - days)
          city_breakdown :=
            get_city_stats db.clicks (linkIdsOf db userId) (now - days)
          geographic_trends :=
            get_geographic_trends db.clicks (linkIdsOf db userId) (now - days) now } := by
      simp [get_geographic_analytics, h, linkIdsOf]
    rw [hg]
    refine ⟨rfl, ?_, ?_⟩
    · rw [length_get_country_stats]
      exact Nat.min_le_left _ _
    · intro hc
      rw [length_get_country_stats]
      constructor
      · exact Nat.min_eq_left (Nat.le_of_lt hc)
      · rw [Nat.min_eq_left (Nat.le_of_lt hc)]
        exact hc

/-- C10 witness: eleven distinct countries in the window, yet
total_countries is reported as 10. -/
theorem c10_total_countries_truncated_witness :
    10 < distinctCountryCount dbManyCountries.clicks
        (linkIdsOf dbManyCountries 1) ((7 : ℤ) - 30) ∧
    (get_geographic_analytics dbManyCountries 1 30 7).total_countries = 10 :=
  ⟨by decide,
   ((c10_total_countries_truncated dbManyCountries 1 30 7).2.2 (by decide)).1⟩

theorem get_top_links_eq (clicks : List ClickEvent) (links : List Link)
    (startDate : ℤ) :
    get_top_links clicks links startDate =
      (((links.map (fun l => (l, countLinkClicks clicks l.id startDate))).insertionSort
          byClicksDesc).take 5).map (fun p =>
        { link_id := p.1.id
          title := p.1.title
          clicks := p.2
          percentage :=
            if 0 < totalTopClicks clicks links startDate then
              pythonRound1 ((p.2 : ℚ) / totalTopClicks clicks links startDate * 100)
            else 0 }) := rfl

theorem sum_map_round1_le (T : ℚ) (l : List (Link × Nat)) :
    ((l.map (fun p => pythonRound1 ((p.2 : ℚ) / T * 100))).sum : ℚ) ≤
      (l.map (fun p => (p.2 : ℚ) / T * 100)).sum + l.length * (1/20) := by
  induction l with
  | nil => simp
  | cons a t ih =>
      simp only [List.map_cons, List.sum_cons, List.length_cons]
      have h := pythonRound1_le ((a.2 : ℚ) / T * 100)
      push_cast
      linarith

theorem sum_map_div (T : ℚ) (l : List (Link × Nat)) :
    (l.map (fun p => (p.2 : ℚ) / T * 100)).sum =
      ((l.map (·.2)).sum : ℚ) / T * 100 := by
  induction l with
  | nil => simp
  | cons a t ih =>
      simp only [List.map_cons, List.sum_cons]
      rw [ih]
      ring

theorem sum_take_le_sum_nat (l : List Nat) (n : Nat) :
    (l.take n).sum ≤ l.sum := by
  conv_rhs => rw [← List.take_append_drop n l]
  rw [List.sum_append]
  exact Nat.le_add_right _ _

/-- C6: top_links has at most 5 entries, is sorted descending by click
count, each entry's percentage is its count over the total across all of
the user's links times 100 rounded to 1 decimal (0 for every entry when
the total is 0), and the percentages sum to at most 100 up to the
rounding slack of 1/20 per entry. -/
theorem c6_top_links_shape :
    ∀ (clicks : List ClickEvent) (links : List Link) (startDate : ℤ),
      (get_top_links clicks links startDate).length ≤ 5 ∧
      List.Pairwise (fun a b => b.clicks ≤ a.clicks)
        (get_top_links clicks links startDate) ∧
      (∀ s ∈ get_top_links clicks links startDate,
        s.percentage =
          if 0 < totalTopClicks clicks links startDate then
            pythonRound1
              ((s.clicks : ℚ) / totalTopClicks clicks links startDate * 100)
          else 0) ∧
      (totalTopClicks clicks links startDate = 0 →
        ∀ s ∈ get_top_links clicks links startDate, s.percentage = 0) ∧
      ((get_top_links clicks links startDate).map (·.percentage)).sum ≤
        100 + ((get_top_links clicks links startDate).length : ℚ) * (1/20) := by
  intro clicks links startDate
  rw [get_top_links_eq]
  set LP := links.map (fun l => (l, countLinkClicks clicks l.id startDate)) with hLP
  set S := LP.insertionSort byClicksDesc with hS
  set T := totalTopClicks clicks links startDate with hT
  have hsorted : List.Pairwise byClicksDesc S :=
    List.sorted_insertionSort byClicksDesc LP
  have htake : List.Pairwise byClicksDesc (S.take 5) :=
    hsorted.sublist (List.take_sublist 5 S)
  have hsum_perm : (S.map (·.2)).sum = T := by
    rw [hT, hS, hLP]
    exact ((List.perm_insertionSort byClicksDesc _).map (·.2)).sum_eq
  have hsum_take : ((S.take 5).map (·.2)).sum ≤ T := by
    rw [← hsum_perm, List.map_take]
    exact sum_take_le_sum_nat _ 5
  refine ⟨?_, ?_, ?_, ?_, ?_⟩
  · rw [List.length_map, List.length_take]
    exact Nat.min_le_left _ _
  · rw [List.pairwise_map]
    exact htake
  · intro s hs
    rcases List.mem_map.mp hs with ⟨p, _, rfl⟩
    rfl
  · intro h0 s hs
    rcases List.mem_map.mp hs with ⟨p, _, rfl⟩
    simp [h0]
  · rw [List.map_map, List.length_map]
    by_cases hpos : 0 < T
    · have hfun : ((fun s : LinkStats => s.percentage) ∘ fun p : Link × Nat =>
          ({ link_id := p.1.id, title := p.1.title, clicks := p.2,
             percentage := if 0 < T then
               pythonRound1 ((p.2 : ℚ) / T * 100) else 0 } : LinkStats)) =
          fun p : Link × Nat => pythonRound1 ((p.2 : ℚ) / T * 100) := by
        funext p
        simp [hpos]
      rw [hfun]
      have h1 := sum_map_round1_le (T : ℚ) (S.take 5)
      have h2 := sum_map_div (T : ℚ) (S.take 5)
      have hTq : (0 : ℚ) < T := by exact_mod_cast hpos
      have hca : (((S.take 5).map (·.2)).sum : ℚ) ≤ (T : ℚ) := by
        have h' : ((((S.take 5).map (·.2)).sum : ℕ) : ℚ) ≤ (T : ℚ) :=
          Nat.cast_le.mpr hsum_take
        rw [Nat.cast_list_sum, List.map_map] at h'
        simpa [Function.comp] using h'
      have h3 : (((S.take 5).map (·.2)).sum : ℚ) / T * 100 ≤ 100 := by
        rw [div_mul_eq_mul_div, div_le_iff₀ hTq]
        nlinarith
      rw [h2] at h1
      linarith
    · have hfun : ((fun s : LinkStats => s.percentage) ∘ fun p : Link × Nat =>
          ({ link_id := p.1.id, title := p.1.title, clicks := p.2,
             percentage := if 0 < T then
               pythonRound1 ((p.2 : ℚ) / T * 100) else 0 } : LinkStats)) =
          fun _ : Link × Nat => (0 : ℚ) := by
        funext p
        simp [hpos]
      rw [hfun]
      have hz : ((S.take 5).map (fun _ : Link × Nat => (0 : ℚ))).sum = 0 := by
        simp
      rw [hz]
      positivity

/-- C6 witness: a concrete zero-total computation — one link, no clicks:
at most five entries, every percentage 0. -/
theorem c6_top_links_shape_witness :
    (get_top_links [] [fxLink] 0).length ≤ 5 ∧
    (∀ s ∈ get_top_links [] [fxLink] 0, s.percentage = 0) :=
  ⟨(c6_top_links_shape [] [fxLink] 0).1,
   (c6_top_links_shape [] [fxLink] 0).2.2.2.1 (by decide)⟩

theorem processUser_logs_shape (cfg : Config) (env : Nat → UserEnv)
    (now start : ℤ) (db : Db) (u : User) :
    (processUser cfg env now start db u).1.email_logs = db.email_logs ∨
    ∃ l, (processUser cfg env now start db u).1.email_logs = l :: db.email_logs ∧
      l.user_id = u.id ∧ l.email_type = EmailType.analyticsSummary ∧
      (l.success = true →
        l.analytics_period_start = some start ∧
        hasRecentSuccessLog db u.id start = false) := by
  by_cases hdup : hasRecentSuccessLog db u.id start = true
  · left
    simp [processUser, hdup]
  · have hdupf : hasRecentSuccessLog db u.id start = false := by
      revert hdup
      cases hasRecentSuccessLog db u.id start <;> simp
    cases hr : (env u.id).raiseMsg with
    | some m => left; simp [processUser, hdup, hr]
    | none =>
      by_cases hact : 0 < (get_analytics db u.id 7 now).total_clicks
      · by_cases hflag : cfg.send_analytics_emails = false
        · left
          simp [processUser, hdup, hr, hact, send_analytics_summary, hflag]
        · by_cases hzero : u.id = 0
          · left
            simp only [hzero] at hdup hr hact
            cases ht : (env 0).transport <;>
              simp [processUser, hdup, hr, hact, send_analytics_summary, hflag,
                send_email, ht, hzero]
          · cases ht : (env u.id).transport with
            | delivered =>
                right
                refine ⟨{ user_id := u.id,
                          email_type := EmailType.analyticsSummary,
                          recipient_email := u.email,
                          subject := "analytics summary",
                          sent_at := db.clock,
                          success := true,
                          error_message := none,
                          analytics_period_start := some start,
                          analytics_period_end := some now }, ?_, rfl, rfl, ?_⟩
                · simp [processUser, hdup, hr, hact, send_analytics_summary,
                    hflag, send_email, ht, hzero, logEmail, setPeriodOnFirst]
                · intro _
                  exact ⟨rfl, hdupf⟩
            | failed msg =>
                right
                refine ⟨{ user_id := u.id,
                          email_type := EmailType.analyticsSummary,
                          recipient_email := u.email,
                          subject := "analytics summary",
                          sent_at := db.clock,
                          success := false,
                          error_message := some msg,
                          analytics_period_start := none,
                          analytics_period_end := none }, ?_, rfl, rfl, ?_⟩
                · simp [processUser, hdup, hr, hact, send_analytics_summary,
                    hflag, send_email, ht, hzero, logEmail, setPeriodOnFirst]
                · intro h
                  cases h
      · left
        simp [processUser, hdup, hr, hact]

theorem successLogCount_cons_eq (db db' : Db) (l : EmailLog) (uid : Nat)
    (h : db'.email_logs = l :: db.email_logs) :
    successLogCount db' uid =
      successLogCount db uid +
        (if (l.user_id == uid && (l.email_type == EmailType.analyticsSummary) &&
            l.success) = true then 1 else 0) := by
  unfold successLogCount
  rw [h, List.filter_cons]
  split
  · simp [List.length_cons]
  · simp

theorem hasRecent_cons_eq (db db' : Db) (l : EmailLog) (uid : Nat)
    (start : ℤ) (h : db'.email_logs = l :: db.email_logs) :
    hasRecentSuccessLog db' uid start =
      ((l.user_id == uid && (l.email_type == EmailType.analyticsSummary) &&
        (match l.analytics_period_start with
         | some p => decide (start ≤ p)
         | none => false) &&
        l.success) || hasRecentSuccessLog db uid start) := by
  unfold hasRecentSuccessLog
  rw [h, List.any_cons]

theorem processUser_schedInv (cfg : Config) (env : Nat → UserEnv)
    (now start : ℤ) (db0 db : Db) (u : User) (h : schedInv db0 db start) :
    schedInv db0 (processUser cfg env now start db u).1 start := by
  intro uid
  rcases processUser_logs_shape cfg env now start db u with
    hsame | ⟨l, hl, hluid, hltype, hlsucc⟩
  · have h1 : successLogCount (processUser cfg env now start db u).1 uid =
        successLogCount db uid := by
      unfold successLogCount
      rw [hsame]
    have h2 : hasRecentSuccessLog (processUser cfg env now start db u).1 uid start =
        hasRecentSuccessLog db uid start := by
      unfold hasRecentSuccessLog
      rw [hsame]
    rw [h1, h2]
    exact h uid
  · have hcount := successLogCount_cons_eq db _ l uid hl
    have hrec := hasRecent_cons_eq db _ l uid start hl
    by_cases hs : l.success = true
    · by_cases huid : l.user_id = uid
      · obtain ⟨hps, hdupf⟩ := hlsucc hs
        have hdupf' : hasRecentSuccessLog db uid start = false := by
          rw [← huid, hluid]
          exact hdupf
        have hcount' : successLogCount (processUser cfg env now start db u).1 uid =
            successLogCount db uid + 1 := by
          rw [hcount, huid, hltype, hs]
          simp
        have hle : successLogCount db uid ≤ successLogCount db0 uid := by
          by_contra hlt
          push_neg at hlt
          have := (h uid).2 hlt
          rw [hdupf'] at this
          cases this
        constructor
        · omega
        · intro _
          rw [hrec]
          have hpred : (l.user_id == uid &&
              (l.email_type == EmailType.analyticsSummary) &&
              (match l.analytics_period_start with
               | some p => decide (start ≤ p)
               | none => false) &&
              l.success) = true := by
            rw [huid, hltype, hs, hps]
            simp
          rw [hpred]
          simp
      · have hcount' : successLogCount (processUser cfg env now start db u).1 uid =
            successLogCount db uid := by
          rw [hcount]
          have : (l.user_id == uid) = false := by
            simp [huid]
          rw [this]
          simp
        rw [hcount']
        constructor
        · exact (h uid).1
        · intro hlt
          rw [hrec]
          rw [(h uid).2 hlt]
          simp
    · have hsf : l.success = false := by
        revert hs
        cases l.success <;> simp
      have hcount' : successLogCount (processUser cfg env now start db u).1 uid =
          successLogCount db uid := by
        rw [hcount, hsf]
        simp
      rw [hcount']
      constructor
      · exact (h uid).1
      · intro hlt
        rw [hrec]
        rw [(h uid).2 hlt]
        simp

theorem processUsers_schedInv (cfg : Config) (env : Nat → UserEnv)
    (now start : ℤ) (db0 : Db) :
    ∀ (us : List User) (db : Db) (s e : Nat), schedInv db0 db start →
      schedInv db0 (processUsers cfg env now start us db s e).1 start := by
  intro us
  induction us with
  | nil =>
      intro db s e h
      simpa [processUsers] using h
  | cons u us ih =>
      intro db s e h
      simp only [processUsers]
      exact ih _ _ _ (processUser_schedInv cfg env now start db0 db u h)

theorem schedInv_refl (db : Db) (start : ℤ) : schedInv db db start := by
  intro uid
  exact ⟨Nat.le_succ _, fun hlt => absurd hlt (lt_irrefl _)⟩

theorem processUser_sentOk_logs (cfg : Config) (env : Nat → UserEnv)
    (now start : ℤ) (db : Db) (u : User)
    (hflag : cfg.send_analytics_emails = true) (hzero : u.id ≠ 0)
    (hok : (processUser cfg env now start db u).2 = Outcome.sentOk) :
    (processUser cfg env now start db u).1.email_logs =
      { user_id := u.id, email_type := EmailType.analyticsSummary,
        recipient_email := u.email, subject := "analytics summary",
        sent_at := db.clock, success := true, error_message := none,
        analytics_period_start := some start,
        analytics_period_end := some now } :: db.email_logs := by
  by_cases hdup : hasRecentSuccessLog db u.id start = true
  · simp [processUser, hdup] at hok
  · cases hr : (env u.id).raiseMsg with
    | some m => simp [processUser, hdup, hr] at hok
    | none =>
      by_cases hact : 0 < (get_analytics db u.id 7 now).total_clicks
      · cases ht : (env u.id).transport with
        | delivered =>
            simp [processUser, hdup, hr, hact, send_analytics_summary, hflag,
              send_email, ht, hzero, logEmail, setPeriodOnFirst]
        | failed msg =>
            simp [processUser, hdup, hr, hact, send_analytics_summary, hflag,
              send_email, ht, hzero] at hok
      · simp [processUser, hdup, hr, hact] at hok

/-- C1: (i) the duplicate check — a user with an existing successful
analytics-summary log whose period start is on/after the target period
start is skipped with the store untouched; (ii) with emails enabled and
a real (nonzero) user id, a sent summary adds exactly one successful
analytics-summary log for that user; (iii) hence running the weekly job
twice in immediate succession over the same period gives every user at
most one new successful analytics-summary log — at most one successful
summary email per user for the period. -/
theorem c1_duplicate_suppression :
    (∀ (cfg : Config) (env : Nat → UserEnv) (now start : ℤ) (db : Db)
       (u : User),
      hasRecentSuccessLog db u.id start = true →
      processUser cfg env now start db u = (db, Outcome.skippedDup)) ∧
    (∀ (cfg : Config) (env : Nat → UserEnv) (now start : ℤ) (db : Db)
       (u : User),
      cfg.send_analytics_emails = true → u.id ≠ 0 →
      (processUser cfg env now start db u).2 = Outcome.sentOk →
      successLogCount (processUser cfg env now start db u).1 u.id =
        successLogCount db u.id + 1) ∧
    (∀ (cfg : Config) (env1 env2 : Nat → UserEnv) (now : ℤ) (db : Db)
       (uid : Nat),
      successLogCount
        (send_weekly_analytics_emails cfg env2 now
          (send_weekly_analytics_emails cfg env1 now db).1).1 uid ≤
        successLogCount db uid + 1) := by
  refine ⟨?_, ?_, ?_⟩
  · intro cfg env now start db u h
    simp [processUser, h]
  · intro cfg env now start db u hflag hzero hok
    have hl := processUser_sentOk_logs cfg env now start db u hflag hzero hok
    have hc := successLogCount_cons_eq db _ _ u.id hl
    rw [hc]
    simp
  · intro cfg env1 env2 now db uid
    have h1 := processUsers_schedInv cfg env1 now (now - 7) db
      (activeUsersOf db) db 0 0 (schedInv_refl db (now - 7))
    have h2 := processUsers_schedInv cfg env2 now (now - 7) db
      (activeUsersOf (send_weekly_analytics_emails cfg env1 now db).1)
      (send_weekly_analytics_emails cfg env1 now db).1 0 0 h1
    exact (h2 uid).1

/-- C1 witness: concrete runs — a tagged success log makes the second
firing skip the user; a fresh store gains exactly one success log and
stays at one after running the job twice at the same period. -/
theorem c1_duplicate_suppression_witness :
    processUser cfgOn envDeliver 7 0 dbDup (fxUser 1) =
      (dbDup, Outcome.skippedDup) ∧
    successLogCount (processUser cfgOn envDeliver 7 0 dbFresh (fxUser 1)).1 1 =
      successLogCount dbFresh 1 + 1 ∧
    successLogCount
        (send_weekly_analytics_emails cfgOn envDeliver 7
          (send_weekly_analytics_emails cfgOn envDeliver 7 dbFresh).1).1 1 ≤
      successLogCount dbFresh 1 + 1 :=
  ⟨c1_duplicate_suppression.1 cfgOn envDeliver 7 0 dbDup (fxUser 1) (by decide),
   c1_duplicate_suppression.2.1 cfgOn envDeliver 7 0 dbFresh (fxUser 1) rfl
     (by decide) (by decide),
   c1_duplicate_suppression.2.2 cfgOn envDeliver envDeliver 7 dbFresh 1⟩

/-- C3 counterexample: a run in which both active users are skipped (one
by the duplicate check, one by the zero-activity check) returns
`{sent := 0, errors := 0}` — the result dict carries no skipped count at
all, against the claimed {sent, errors, skipped}. -/
theorem c3_no_skipped_count :
    send_weekly_analytics_emails cfgOn envDeliver 7 dbTwoSkips =
      (dbTwoSkips, { sent := 0, errors := 0 }) := by decide

theorem processUsers_count_le (cfg : Config) (env : Nat → UserEnv)
    (now start : ℤ) :
    ∀ (us : List User) (db : Db) (s e : Nat),
      (processUsers cfg env now start us db s e).2.sent +
        (processUsers cfg env now start us db s e).2.errors ≤
        s + e + us.length := by
  intro us
  induction us with
  | nil =>
      intro db s e
      simp [processUsers]
  | cons u us ih =>
      intro db s e
      simp only [processUsers, List.length_cons]
      have hb : sentBump (processUser cfg env now start db u).2 +
          errorBump (processUser cfg env now start db u).2 ≤ 1 := by
        cases (processUser cfg env now start db u).2 <;>
          simp [sentBump, errorBump]
      have := ih (processUser cfg env now start db u).1
        (s + sentBump (processUser cfg env now start db u).2)
        (e + errorBump (processUser cfg env now start db u).2)
      omega

/-- C3 (amended): the weekly job reports accumulated counts of sent and
errored users only — there is no skipped count in the result; a user
skipped by the duplicate check or the zero-activity check contributes to
neither accumulator, and sent + errors is bounded by the number of
active users. -/
theorem c3_sent_errors_only :
    (∀ (cfg : Config) (env : Nat → UserEnv) (now : ℤ) (db : Db),
      (send_weekly_analytics_emails cfg env now db).2.sent +
        (send_weekly_analytics_emails cfg env now db).2.errors ≤
        (activeUsersOf db).length) ∧
    (∀ (cfg : Config) (env : Nat → UserEnv) (now start : ℤ) (us : List User)
       (db : Db) (u : User) (s e : Nat),
      ((processUser cfg env now start db u).2 = Outcome.skippedDup ∨
       (processUser cfg env now start db u).2 = Outcome.skippedNoActivity) →
      processUsers cfg env now start (u :: us) db s e =
        processUsers cfg env now start us
          (processUser cfg env now start db u).1 s e) := by
  constructor
  · intro cfg env now db
    have := processUsers_count_le cfg env now (now - 7) (activeUsersOf db) db 0 0
    simpa [send_weekly_analytics_emails] using this
  · intro cfg env now start us db u s e h
    simp only [processUsers]
    rcases h with h | h <;> rw [h] <;> simp [sentBump, errorBump]

/-- C3 amended witness: a duplicate-skipped user leaves both
accumulators untouched. -/
theorem c3_sent_errors_only_witness :
    processUsers cfgOn envDeliver 7 0 [fxUser 1] dbDup 0 0 =
      processUsers cfgOn envDeliver 7 0 []
        (processUser cfgOn envDeliver 7 0 dbDup (fxUser 1)).1 0 0 :=
  c3_sent_errors_only.2 cfgOn envDeliver 7 0 [] dbDup (fxUser 1) 0 0
    (Or.inl (by decide))

/-- C4 counterexample: with analytics emails enabled, a failed dispatch
records an EmailLog row WITHOUT period tags — success = false and both
analytics period fields are null, so the row is not "tagged with the
computed period_start/period_end regardless of send success/failure". -/
theorem c4_failed_send_untagged :
    ((send_analytics_summary cfgOn dbFresh (fxUser 1)
        (SendResult.failed "transport down") 0 7).1.email_logs.map
      (fun l => (l.success, l.analytics_period_start, l.analytics_period_end))) =
      [(false, none, none)] := by decide

/-- C4 (amended): with analytics emails enabled and a nonzero user id,
dispatching the summary always appends exactly one EmailLog row for the
user — on success and on failure alike — but the period tags are written
only when the send succeeded; a failed send's row has null period
fields. -/
theorem c4_log_row_tagged_only_on_success :
    ∀ (cfg : Config) (db : Db) (u : User) (t : SendResult) (ps pe : ℤ),
      cfg.send_analytics_emails = true → u.id ≠ 0 →
      ∃ l, (send_analytics_summary cfg db u t ps pe).1.email_logs =
          l :: db.email_logs ∧
        l.user_id = u.id ∧ l.email_type = EmailType.analyticsSummary ∧
        l.success = (send_analytics_summary cfg db u t ps pe).2 ∧
        ((send_analytics_summary cfg db u t ps pe).2 = true →
          l.analytics_period_start = some ps ∧
            l.analytics_period_end = some pe) ∧
        ((send_analytics_summary cfg db u t ps pe).2 = false →
          l.analytics_period_start = none ∧ l.analytics_period_end = none) := by
  intro cfg db u t ps pe hflag hzero
  cases t with
  | delivered =>
      refine ⟨{ user_id := u.id, email_type := EmailType.analyticsSummary,
                recipient_email := u.email, subject := "analytics summary",
                sent_at := db.clock, success := true, error_message := none,
                analytics_period_start := some ps,
                analytics_period_end := some pe }, ?_, rfl, rfl, ?_, ?_, ?_⟩
      · simp [send_analytics_summary, hflag, send_email, hzero, logEmail,
          setPeriodOnFirst]
      · simp [send_analytics_summary, hflag, send_email, hzero]
      · intro _
        exact ⟨rfl, rfl⟩
      · intro h
        rw [show (send_analytics_summary cfg db u SendResult.delivered ps pe).2 =
            true by simp [send_analytics_summary, hflag, send_email, hzero]] at h
        cases h
  | failed msg =>
      refine ⟨{ user_id := u.id, email_type := EmailType.analyticsSummary,
                recipient_email := u.email, subject := "analytics summary",
                sent_at := db.clock, success := false,
                error_message := some msg, analytics_period_start := none,
                analytics_period_end := none }, ?_, rfl, rfl, ?_, ?_, ?_⟩
      · simp [send_analytics_summary, hflag, send_email, hzero, logEmail]
      · simp [send_analytics_summary, hflag, send_email, hzero]
      · intro h
        rw [show (send_analytics_summary cfg db u (SendResult.failed msg) ps pe).2 =
            false by simp [send_analytics_summary, hflag, send_email, hzero]] at h
        cases h
      · intro _
        exact ⟨rfl, rfl⟩

/-- C4 amended witness: a successful concrete dispatch appends one
tagged row. -/
theorem c4_log_row_tagged_only_on_success_witness :
    ∃ l, (send_analytics_summary cfgOn dbFresh (fxUser 1)
        SendResult.delivered 0 7).1.email_logs = l :: dbFresh.email_logs ∧
      l.user_id = (fxUser 1).id ∧ l.email_type = EmailType.analyticsSummary ∧
      l.success = (send_analytics_summary cfgOn dbFresh (fxUser 1)
        SendResult.delivered 0 7).2 ∧
      ((send_analytics_summary cfgOn dbFresh (fxUser 1)
          SendResult.delivered 0 7).2 = true →
        l.analytics_period_start = some 0 ∧ l.analytics_period_end = some 7) ∧
      ((send_analytics_summary cfgOn dbFresh (fxUser 1)
          SendResult.delivered 0 7).2 = false →
        l.analytics_period_start = none ∧ l.analytics_period_end = none) :=
  c4_log_row_tagged_only_on_success cfgOn dbFresh (fxUser 1)
    SendResult.delivered 0 7 rfl (by decide)

/-- C8: an exception raised while processing one user (modelled by the
environment's raise flag, struck after the duplicate check, i.e. in the
analytics stage) is caught: the store is untouched, the error counter
increments, and the loop continues with the remaining users. -/
theorem c8_per_user_exception_isolated :
    ∀ (cfg : Config) (env : Nat → UserEnv) (now start : ℤ) (us : List User)
      (db : Db) (u : User) (s e : Nat) (m : String),
      (env u.id).raiseMsg = some m →
      hasRecentSuccessLog db u.id start = false →
      processUsers cfg env now start (u :: us) db s e =
        processUsers cfg env now start us db s (e + 1) := by
  intro cfg env now start us db u s e m hm hdup
  have hp : processUser cfg env now start db u = (db, Outcome.errored) := by
    simp [processUser, hdup, hm]
  simp only [processUsers, hp]
  simp [sentBump, errorBump]

/-- C8 witness: a raising user is counted as one error and the loop
moves on. -/
theorem c8_per_user_exception_isolated_witness :
    processUsers cfgOn envRaise 7 0 [fxUser 1] dbFresh 0 0 =
      processUsers cfgOn envRaise 7 0 [] dbFresh 0 1 :=
  c8_per_user_exception_isolated cfgOn envRaise 7 0 [] dbFresh (fxUser 1) 0 0
    "boom" rfl (by decide)
